import Mathlib

/-!
Shallow embedding of the REANA job-controller backends:
`reana_job_controller/kubernetes_job_manager.py`,
`reana_job_controller/htcondorvc3_job_manager.py` and
`reana_job_controller/condor.py`.

External collaborators (the `reana_commons` secrets store and volume
helpers, the configured constants, the CVMFS repository table) are
parameters of the embedding; the logic of the three source files is
translated directly.
-/

/-- A Kubernetes environment variable entry, `{'name': ..., 'value': ...}`. -/
structure EnvEntry where
  name : String
  value : String
deriving DecidableEq

/-- A Kubernetes volumeMount spec entry. -/
structure VolumeMount where
  name : String
  mountPath : String
  subPath : Option String := none
deriving DecidableEq

/-- A Kubernetes volume spec entry: its name plus a rendering of its source
(hostPath, emptyDir, configMap, ...). -/
structure Volume where
  name : String
  source : String
deriving DecidableEq

/-- A container of a pod spec (the fields `execute` writes). -/
structure Container where
  image : String
  command : List String
  name : String
  env : List EnvEntry
  volumeMounts : List VolumeMount
deriving DecidableEq

/-- Flattened form of the dict `self.job` built by `KubernetesJobManager.execute`:
`metadata.name`, `metadata.namespace`, `spec.backoffLimit`,
`spec.template.spec.containers`, `spec.template.spec.initContainers`,
`spec.template.spec.volumes`, `spec.template.spec.restartPolicy` and
`spec.template.spec.securityContext` (as the pair runAsGroup, runAsUser). -/
structure K8sJob where
  name : String
  namespc : String
  backoffLimit : Nat
  containers : List Container
  initContainers : List Container
  volumes : List Volume
  restartPolicy : String
  securityContext : Option (Int × Int)
deriving DecidableEq

/-- The backend-agnostic job request fields read by `KubernetesJobManager`.
`cvmfs_mounts` is `none` when the source string is the literal `'false'`,
and `some paths` for a parseable list of mount names. -/
structure JobRequest where
  docker_img : String
  cmd : List String
  env_vars : List (String × String)
  workflow_workspace : String
  cvmfs_mounts : Option (List String)
  shared_file_system : Bool
  kerberos : Bool
  kubernetes_uid : Option Int
deriving DecidableEq

/-- External collaborators of `KubernetesJobManager.execute`: what the
`reana_commons` secrets store and volume helpers return, the configured
constants, and the admin configuration. -/
structure ExternalConfig where
  secretEnvVars : List EnvEntry
  secretsVolume : Volume
  secretsVolumeMount : VolumeMount
  jobHostpathMounts : List (String × String)
  sharedVolumePair : String → VolumeMount × Volume
  eosAvailable : Bool
  eosPair : VolumeMount × Volume
  cvmfsRepositories : List (String × String)
  cvmfsVolume : String → Volume
  runtimeUserGid : Int
  runtimeUserUid : Int
  k8sNamespace : String
  krb5ConfigMapName : String
  krb5TokenCacheLocation : String
  krb5TokenCacheFilename : String
  krb5ContainerImage : String
  krb5ContainerName : String
  cernKeytab : String
  cernUser : String

/-- `KubernetesJobManager.MAX_NUM_JOB_RESTARTS = 0`. -/
def MAX_NUM_JOB_RESTARTS : Nat := 0

/-- `KubernetesJobManager.MAX_NUM_RESUBMISSIONS = 3`. -/
def MAX_NUM_RESUBMISSIONS : Nat := 3

/-- `KubernetesJobManager.set_user_id`: the source guard is
`if kubernetes_uid and kubernetes_uid >= 100`; Python truthiness makes
both `None` and `0` fall through to the configured default
`WORKFLOW_RUNTIME_USER_UID`. -/
def set_user_id (kubernetes_uid : Option Int) (workflowRuntimeUserUid : Int) : Int :=
  match kubernetes_uid with
  | some u => if u ≠ 0 ∧ 100 ≤ u then u else workflowRuntimeUserUid
  | none => workflowRuntimeUserUid

/-- Apply `f` to `containers[0]`, as the source's
`self.job['spec']['template']['spec']['containers'][0]` updates do. -/
def mapContainer0 (f : Container → Container) (j : K8sJob) : K8sJob :=
  { j with containers :=
      match j.containers with
      | [] => []
      | c :: rest => f c :: rest }

/-- One iteration of `KubernetesJobManager.add_volumes`: append the
volumeMount to `containers[0].volumeMounts` and the volume to
`spec.volumes`. -/
def appendVolumePair (j : K8sJob) (vm : VolumeMount) (v : Volume) : K8sJob :=
  { mapContainer0 (fun c => { c with volumeMounts := c.volumeMounts ++ [vm] }) j with
      volumes := j.volumes ++ [v] }

/-- `KubernetesJobManager.add_volumes`: for each `(volume_mount, volume)`
pair, append the mount to the single job container and the volume to the
pod spec. -/
def add_volumes (j : K8sJob) : List (VolumeMount × Volume) → K8sJob
  | [] => j
  | (vm, v) :: rest => add_volumes (appendVolumePair j vm v) rest

/-- Python dict lookup on an association list (first matching key). -/
def dictLookup (m : List (String × String)) (k : String) : Option String :=
  match m with
  | [] => none
  | q :: rest => if q.1 == k then some q.2 else dictLookup rest k

/-- Python dict assignment `m[k] = v`: update in place when the key is
present (keeping its position), otherwise append. -/
def dictInsert (m : List (String × String)) (k v : String) : List (String × String) :=
  if m.any (fun q => q.1 == k) then m.map (fun q => if q.1 == k then (k, v) else q)
  else m ++ [(k, v)]

/-- The loop building `cvmfs_map` in `execute` (lines 149-154): for every
requested mount path found in `CVMFS_REPOSITORIES`, record
`cvmfs_map[CVMFS_REPOSITORIES[path]] = path`. -/
def cvmfs_map_aux (table : List (String × String)) :
    List String → List (String × String) → List (String × String)
  | [], m => m
  | p :: ps, m =>
    match dictLookup table p with
    | some repo => cvmfs_map_aux table ps (dictInsert m repo p)
    | none => cvmfs_map_aux table ps m

/-- The `cvmfs_map` dict of `execute`, starting empty. -/
def cvmfs_map (table : List (String × String)) (paths : List String) :
    List (String × String) :=
  cvmfs_map_aux table paths []

/-- The CVMFS additions of `execute` (lines 156-164): for every
`(repository, mount_path)` of `cvmfs_map`, one volumeMount named after
`get_k8s_cvmfs_volume(repository)` at `/cvmfs/<mount_path>`, paired with
that volume. -/
def cvmfs_entries (table : List (String × String)) (cvmfsVolume : String → Volume)
    (paths : List String) : List (VolumeMount × Volume) :=
  (cvmfs_map table paths).map (fun rp =>
    ({ name := (cvmfsVolume rp.1).name, mountPath := "/cvmfs/" ++ rp.2 }, cvmfsVolume rp.1))

/-- The skeleton job dict of `execute` (lines 90-120). -/
def initialJob (req : JobRequest) (cfg : ExternalConfig) (backend_job_id : String) : K8sJob :=
  { name := backend_job_id
    namespc := cfg.k8sNamespace
    backoffLimit := MAX_NUM_JOB_RESTARTS
    containers := [{ image := req.docker_img, command := req.cmd, name := "job",
                     env := [], volumeMounts := [] }]
    initContainers := []
    volumes := []
    restartPolicy := "Never"
    securityContext := none }

/-- Secrets injection of `execute` (lines 121-136): extend the container
env with the env secrets, append the file-secrets volume and its mount. -/
def addSecrets (cfg : ExternalConfig) (j : K8sJob) : K8sJob :=
  let j1 := mapContainer0 (fun c => { c with env := c.env ++ cfg.secretEnvVars }) j
  let j2 := { j1 with volumes := j1.volumes ++ [cfg.secretsVolume] }
  mapContainer0 (fun c => { c with volumeMounts := c.volumeMounts ++ [cfg.secretsVolumeMount] }) j2

/-- Caller-supplied environment variables (lines 138-142). -/
def addEnvVars (req : JobRequest) (j : K8sJob) : K8sJob :=
  mapContainer0
    (fun c => { c with env := c.env ++ req.env_vars.map (fun kv => { name := kv.1, value := kv.2 }) }) j

/-- The `(volume_mount, volume)` pairs built by `add_hostpath_volumes`
from `JOB_HOSTPATH_MOUNTS`. -/
def hostpath_pairs (cfg : ExternalConfig) : List (VolumeMount × Volume) :=
  cfg.jobHostpathMounts.map (fun np =>
    ({ name := np.1, mountPath := np.2 }, { name := np.1, source := "hostPath:" ++ np.2 }))

/-- `KubernetesJobManager.add_hostpath_volumes`. -/
def add_hostpath_volumes (cfg : ExternalConfig) (j : K8sJob) : K8sJob :=
  add_volumes j (hostpath_pairs cfg)

/-- The pair list of `add_shared_volume`: the `get_shared_volume` pair
when the request asks for a shared file system, nothing otherwise. -/
def shared_pairs (req : JobRequest) (cfg : ExternalConfig) : List (VolumeMount × Volume) :=
  if req.shared_file_system then [cfg.sharedVolumePair req.workflow_workspace] else []

/-- `KubernetesJobManager.add_shared_volume`. -/
def add_shared_volume (req : JobRequest) (cfg : ExternalConfig) (j : K8sJob) : K8sJob :=
  add_volumes j (shared_pairs req cfg)

/-- The pair list of `add_eos_volume`: the configured EOS pair when
`K8S_CERN_EOS_AVAILABLE`, nothing otherwise. -/
def eos_pairs (cfg : ExternalConfig) : List (VolumeMount × Volume) :=
  if cfg.eosAvailable then [cfg.eosPair] else []

/-- `KubernetesJobManager.add_eos_volume`. -/
def add_eos_volume (cfg : ExternalConfig) (j : K8sJob) : K8sJob :=
  add_volumes j (eos_pairs cfg)

/-- The CVMFS pair list of `execute`: empty when `cvmfs_mounts` is the
string `'false'`, the `cvmfs_entries` otherwise. -/
def cvmfs_pairs (req : JobRequest) (cfg : ExternalConfig) : List (VolumeMount × Volume) :=
  match req.cvmfs_mounts with
  | none => []
  | some paths => cvmfs_entries cfg.cvmfsRepositories cfg.cvmfsVolume paths

/-- The CVMFS additions of `execute` (lines 148-164), appending mount and
volume per entry exactly as `add_volumes` does. -/
def add_cvmfs_volumes (req : JobRequest) (cfg : ExternalConfig) (j : K8sJob) : K8sJob :=
  add_volumes j (cvmfs_pairs req cfg)

/-- Lines 166-169: the pod security context fixes `runAsGroup` to
`WORKFLOW_RUNTIME_USER_GID` and `runAsUser` to the validated identity. -/
def set_security_context (req : JobRequest) (cfg : ExternalConfig) (j : K8sJob) : K8sJob :=
  { j with securityContext := some (cfg.runtimeUserGid, set_user_id req.kubernetes_uid cfg.runtimeUserUid) }

/-- The `ticket_cache_volume` of `_add_krb5_init_container`. -/
def krb5TicketCacheVolume : Volume := { name := "krb5-cache", source := "emptyDir" }

/-- The `krb5_config_volume` of `_add_krb5_init_container`. -/
def krb5ConfigVolume (cfg : ExternalConfig) : Volume :=
  { name := "krb5-conf", source := "configMap:" ++ cfg.krb5ConfigMapName }

/-- The extra `volume_mounts` of `_add_krb5_init_container`. -/
def krb5VolumeMounts (cfg : ExternalConfig) : List VolumeMount :=
  [{ name := "krb5-cache", mountPath := cfg.krb5TokenCacheLocation },
   { name := "krb5-conf", mountPath := "/etc/krb5.conf", subPath := some "krb5.conf" }]

/-- The `krb5_container` init container (the source dict carries no `env`
key, rendered here as the empty env list). -/
def krb5InitContainer (cfg : ExternalConfig) : Container :=
  { image := cfg.krb5ContainerImage
    command := ["kinit", "-kt", "/etc/reana/secrets/" ++ cfg.cernKeytab,
                cfg.cernUser ++ "@CERN.CH"]
    name := cfg.krb5ContainerName
    env := []
    volumeMounts := [cfg.secretsVolumeMount] ++ krb5VolumeMounts cfg }

/-- The `KRB5CCNAME` entry appended to the job container env
(`os.path.join` of the cache location and filename). -/
def krb5EnvEntry (cfg : ExternalConfig) : EnvEntry :=
  { name := "KRB5CCNAME",
    value := cfg.krb5TokenCacheLocation ++ "/" ++ cfg.krb5TokenCacheFilename }

/-- `KubernetesJobManager._add_krb5_init_container` (lines 251-298):
extend the pod volumes with the ticket-cache and krb5-config volumes,
extend the job container's mounts with the matching two mounts, append
`KRB5CCNAME` to the job container env and append the sidecar init
container. -/
def add_krb5_init_container (cfg : ExternalConfig) (j : K8sJob) : K8sJob :=
  let j1 := { j with volumes := j.volumes ++ [krb5TicketCacheVolume, krb5ConfigVolume cfg] }
  let j2 := mapContainer0 (fun c => { c with volumeMounts := c.volumeMounts ++ krb5VolumeMounts cfg }) j1
  let j3 := mapContainer0 (fun c => { c with env := c.env ++ [krb5EnvEntry cfg] }) j2
  { j3 with initContainers := j3.initContainers ++ [krb5InitContainer cfg] }

/-- The kerberos guard of `execute` (lines 171-172). -/
def maybe_add_krb5 (req : JobRequest) (cfg : ExternalConfig) (j : K8sJob) : K8sJob :=
  if req.kerberos then add_krb5_init_container cfg j else j

/-- `KubernetesJobManager.execute` (lines 87-175), as the job spec it
assembles before submitting: skeleton, secrets, caller env vars, hostPath
volumes, shared volume, EOS volume, CVMFS volumes, security context and
the optional kerberos sidecar, in the source's order. -/
def execute (req : JobRequest) (cfg : ExternalConfig) (backend_job_id : String) : K8sJob :=
  maybe_add_krb5 req cfg
    (set_security_context req cfg
      (add_cvmfs_volumes req cfg
        (add_eos_volume cfg
          (add_shared_volume req cfg
            (add_hostpath_volumes cfg
              (addEnvVars req
                (addSecrets cfg
                  (initialJob req cfg backend_job_id))))))))

/-- The volumeMounts of `containers[0]` (empty when no container exists). -/
def container0Mounts (j : K8sJob) : List VolumeMount :=
  match j.containers with
  | [] => []
  | c :: _ => c.volumeMounts

/-- The env entries of `containers[0]` (empty when no container exists). -/
def container0Env (j : K8sJob) : List EnvEntry :=
  match j.containers with
  | [] => []
  | c :: _ => c.env

/-- Replace every double-quote character by a backslash-quote pair, the
effect of `re.sub(r'"', '\\"', ...)` in `HTCondorJobManagerVC3.execute`. -/
def escapeDoubleQuotesList : List Char → List Char
  | [] => []
  | c :: rest =>
    if c = '"' then '\\' :: '"' :: escapeDoubleQuotesList rest
    else c :: escapeDoubleQuotesList rest

/-- String form of `escapeDoubleQuotesList`. -/
def escapeDoubleQuotes (s : String) : String := ⟨escapeDoubleQuotesList s.data⟩

/-- Checks that every double quote of the character list is part of a
backslash-quote pair (no bare double quote). -/
def allQuotesEscaped : List Char → Bool
  | [] => true
  | [c] => c ≠ '"'
  | c :: d :: rest =>
    if c = '"' then false
    else if c = '\\' ∧ d = '"' then allQuotesEscaped rest
    else allQuotesEscaped (d :: rest)

/-- The `environment` string of `HTCondorJobManagerVC3.execute` (lines
168-171): `reana_workflow_dir=<workspace>` followed by `; key=value` for
every caller environment variable. -/
def vc3_job_env (workflow_workspace : String) (env_vars : List (String × String)) : String :=
  env_vars.foldl (fun acc kv => acc ++ "; " ++ kv.1 ++ "=" ++ kv.2)
    ("reana_workflow_dir=" ++ workflow_workspace)

/-- The `on_exit_remove` expression of `HTCondorJobManagerVC3.execute`
(line 172), with `MAX_JOB_RESTARTS` formatted in. -/
def on_exit_remove_expr (maxJobRestarts : Nat) : String :=
  "(ExitBySignal == False) && ((ExitCode == 0) || (ExitCode !=0 && NumJobStarts > "
    ++ toString maxJobRestarts ++ "))"

/-- Truth value of the `on_exit_remove` expression, read clause by clause
from the string of `on_exit_remove_expr`. -/
def on_exit_remove_holds (maxJobRestarts : Nat) (exitBySignal : Bool) (exitCode : Int)
    (numJobStarts : Nat) : Prop :=
  exitBySignal = false ∧ (exitCode = 0 ∨ (exitCode ≠ 0 ∧ maxJobRestarts < numJobStarts))

instance (m : Nat) (s : Bool) (c : Int) (n : Nat) : Decidable (on_exit_remove_holds m s c n) :=
  by unfold on_exit_remove_holds; infer_instance

/-- The submission description assembled by `HTCondorJobManagerVC3.execute`
(lines 156-172), in the order the source assigns the keys. The wrapper
path and `MAX_JOB_RESTARTS` (from `reana_job_controller.variables`, not
under src) are parameters. -/
def vc3_submit_description (wrapper workflow_workspace docker_img cmd : String)
    (env_vars : List (String × String)) (maxJobRestarts : Nat) : List (String × String) :=
  [("executable", wrapper),
   ("arguments", workflow_workspace ++ " " ++ docker_img ++ " " ++ escapeDoubleQuotes cmd),
   ("Output", "/tmp/$(Cluster)-$(Process).out"),
   ("Error", "/tmp/$(Cluster)-$(Process).err"),
   ("InitialDir", "/tmp"),
   ("+WantIOProxy", "true"),
   ("environment", vc3_job_env workflow_workspace env_vars),
   ("on_exit_remove", on_exit_remove_expr maxJobRestarts)]

/-- The submission description assembled by `condor_instantiate_job` in
`condor.py` (lines 55-58): only `executable` and `arguments` are set, and
the command is embedded verbatim. -/
def condor_instantiate_job_description (docker_img cmd : String) : List (String × String) :=
  [("executable", "/usr/bin/singularity"),
   ("arguments", "exec docker://" ++ docker_img ++ " " ++ cmd)]

/-- A Python value flowing through the untyped handle interface: the
scheduler's integer cluster id or its string form. -/
inductive PyVal where
  | int (n : Int)
  | str (s : String)
deriving DecidableEq

/-- Python `'...%d...' % v`: formats an integer, raises `TypeError` when
given a string. -/
def percent_d (v : PyVal) : Except String String :=
  match v with
  | .int n => .ok (toString n)
  | .str _ => .error "TypeError: %d format: a number is required, not str"

/-- The removal action issued to the scheduler daemon:
`schedd.act(htcondor.JobAction.Remove, constraint)`. -/
structure RemoveAction where
  action : String
  constraint : String
deriving DecidableEq

/-- `HTCondorJobManagerVC3.stop` (lines 178-184): issue a `Remove` action
with the constraint `'ClusterId==%d' % backend_job_id`; the
`asynchronous` flag is accepted and ignored. -/
def vc3_stop (backend_job_id : PyVal) (asynchronous : Bool) : Except String RemoveAction :=
  (percent_d backend_job_id).map (fun d => { action := "Remove", constraint := "ClusterId==" ++ d })

/-- The handle returned by `HTCondorJobManagerVC3.execute` (line 175):
`str(clusterid)`. -/
def vc3_execute_handle (clusterid : Int) : PyVal := .str (toString clusterid)

/-- The deletion call issued by `KubernetesJobManager.stop`:
`delete_namespaced_job(backend_job_id, K8S_DEFAULT_NAMESPACE, body=V1DeleteOptions(propagation_policy=...))`. -/
structure DeleteCall where
  jobId : String
  namespc : String
  propagationPolicy : String
deriving DecidableEq

/-- `KubernetesJobManager.stop` (lines 193-206): propagation policy is
`Background` when `asynchronous` else `Foreground`. -/
def stop (backend_job_id : String) (asynchronous : Bool) (k8sNamespace : String) : DeleteCall :=
  { jobId := backend_job_id
    namespc := k8sNamespace
    propagationPolicy := if asynchronous then "Background" else "Foreground" }

/-- Outcome of one Kubernetes `create_namespaced_job` call. -/
inductive SubmitAttempt where
  | ok
  | apiException (msg : String)
  | otherException (msg : String)
deriving DecidableEq

/-- A Python call result: a returned value or a raised exception. -/
inductive PyResult (α : Type) where
  | ret (a : α)
  | exc (msg : String)
deriving DecidableEq

/-- Body of `KubernetesJobManager._submit` (lines 178-191): on success the
job name is returned; an `ApiException` is caught and logged, any other
exception is caught and logged, and in both cases the function falls
through, returning Python's implicit `None`. -/
def submit_body (attempt : SubmitAttempt) (jobName : String) : PyResult (Option String) :=
  match attempt with
  | .ok => .ret (some jobName)
  | .apiException _ => .ret none
  | .otherException _ => .ret none

/-- The `retrying.retry(stop_max_attempt_number=...)` decorator: run the
wrapped call; when it raises and attempts remain, run it again; the last
attempt's outcome (value or exception) propagates. Returns the outcome
together with the number of attempts made. -/
def retry_from {α : Type} (f : Nat → PyResult α) : Nat → Nat → PyResult α × Nat
  | i, 0 => (f i, i + 1)
  | i, k + 1 =>
    match f i with
    | .ret a => (.ret a, i + 1)
    | .exc _ => retry_from f (i + 1) k

/-- `retry(stop_max_attempt_number=maxAttempts)` applied to `f`. -/
def retry_call {α : Type} (f : Nat → PyResult α) (maxAttempts : Nat) : PyResult α × Nat :=
  retry_from f 0 (maxAttempts - 1)

/-- `KubernetesJobManager._submit` with its retry decorator
(`stop_max_attempt_number=MAX_NUM_RESUBMISSIONS`), where `backend` gives
the outcome of the i-th Kubernetes API call. -/
def submitWithRetry (backend : Nat → SubmitAttempt) (jobName : String) :
    PyResult (Option String) × Nat :=
  retry_call (fun i => submit_body (backend i) jobName) MAX_NUM_RESUBMISSIONS

/-- The stat signature `filecmp._sig` compares: file type (regular or
not), size and mtime. -/
structure FileSig where
  isRegularFile : Bool
  size : Nat
  mtime : Nat
deriving DecidableEq

/-- `filecmp.cmp(f1, f2)` with its default `shallow=True`: non-regular
files compare unequal; equal stat signatures compare equal WITHOUT
reading the bytes; different sizes compare unequal; otherwise the bytes
are compared. -/
def filecmp_cmp (sig1 sig2 : FileSig) (bytes1 bytes2 : List Nat) : Bool :=
  if !sig1.isRegularFile || !sig2.isRegularFile then false
  else if sig1 = sig2 then true
  else if sig1.size ≠ sig2.size then false
  else bytes1 = bytes2

/-- The file-system facts `get_wrapper` consults: whether the workspace
wrapper exists, its stat signature and bytes, the canonical copy's stat
signature and bytes, whether the wrapper directory exists, whether the
mkdir/copy block succeeds, and the acting operating-system user name
(`pwd.getpwuid(os.getuid()).pw_name`). -/
structure WrapperWorkspace where
  wrapperExists : Bool
  wrapperSig : FileSig
  wrapperBytes : List Nat
  localSig : FileSig
  localBytes : List Nat
  wrapperDirExists : Bool
  copySucceeds : Bool
  currentOsUser : String
deriving DecidableEq

/-- Outcome of `get_wrapper`: the existing wrapper is reused; or the
canonical copy is copied in (recording whether the directory had to be
created); or the mkdir/copy block fails, the error and the acting OS user
are logged, and the exception is re-raised. -/
inductive WrapperOutcome where
  | reused
  | copied (createdDir : Bool)
  | raisedAfterLogging (loggedUser : String)
deriving DecidableEq

/-- `get_wrapper` in `htcondorvc3_job_manager.py` (lines 91-108): reuse
when the wrapper exists and `filecmp.cmp(local_wrapper, wrapper)` holds;
otherwise create the directory when missing and copy, logging the acting
OS user and re-raising on failure. -/
def get_wrapper (fs : WrapperWorkspace) : WrapperOutcome :=
  if fs.wrapperExists && filecmp_cmp fs.localSig fs.wrapperSig fs.localBytes fs.wrapperBytes then
    .reused
  else if fs.copySucceeds then .copied (!fs.wrapperDirExists)
  else .raisedAfterLogging fs.currentOsUser

/-- A concrete external configuration used to evaluate the embedding on
closed inputs. -/
def cfgEx : ExternalConfig :=
  { secretEnvVars := [{ name := "REANA_SECRET", value := "s3cr3t" }]
    secretsVolume := { name := "reana-secretsstore", source := "k8s-secret" }
    secretsVolumeMount := { name := "reana-secretsstore", mountPath := "/etc/reana/secrets" }
    jobHostpathMounts := [("hp-a", "/hp")]
    sharedVolumePair := fun ws =>
      ({ name := "reana-shared-volume", mountPath := ws },
       { name := "reana-shared-volume", source := "cephfs" })
    eosAvailable := false
    eosPair := ({ name := "eos", mountPath := "/eos" }, { name := "eos", source := "hostPath:/var/eos" })
    cvmfsRepositories := [("alice", "alice.cern.ch"), ("atlas", "atlas.cern.ch")]
    cvmfsVolume := fun repo => { name := repo ++ "-cvmfs-volume", source := "csi:" ++ repo }
    runtimeUserGid := 0
    runtimeUserUid := 1000
    k8sNamespace := "default"
    krb5ConfigMapName := "krb5-conf-map"
    krb5TokenCacheLocation := "/krb5_cache"
    krb5TokenCacheFilename := "krb5_cache_file"
    krb5ContainerImage := "krb5-img"
    krb5ContainerName := "krb5-init"
    cernKeytab := "user.keytab"
    cernUser := "johndoe" }

/-- A concrete job request used to evaluate the embedding on closed
inputs: shared file system requested, one CVMFS name known and one
unknown, requested identity 50. -/
def reqEx : JobRequest :=
  { docker_img := "busybox"
    cmd := ["echo", "hi"]
    env_vars := [("A", "1")]
    workflow_workspace := "/var/reana/users/w1"
    cvmfs_mounts := some ["alice", "unknownrepo"]
    shared_file_system := true
    kerberos := false
    kubernetes_uid := some 50 }

/-- A command string containing a double quote. -/
def cmdWithQuote : String := "echo \"hi\""

/-- A stat signature shared by the canonical wrapper and a stale workspace
copy: regular file, same size, same mtime. -/
def staleSig : FileSig := { isRegularFile := true, size := 3, mtime := 42 }

/-- A workspace whose wrapper has the same stat signature as the canonical
copy but different bytes. -/
def wsStale : WrapperWorkspace :=
  { wrapperExists := true
    wrapperSig := staleSig
    wrapperBytes := [1, 2, 3]
    localSig := staleSig
    localBytes := [9, 9, 9]
    wrapperDirExists := true
    copySucceeds := true
    currentOsUser := "reana" }

/-- A workspace with no wrapper yet, no wrapper directory, and a failing
copy step. -/
def wsCopyFail : WrapperWorkspace :=
  { wrapperExists := false
    wrapperSig := staleSig
    wrapperBytes := []
    localSig := staleSig
    localBytes := [1, 2, 3]
    wrapperDirExists := false
    copySucceeds := false
    currentOsUser := "condor" }

/-- Checks that the first list occurs inside the second in order (not
necessarily contiguously). -/
def isSubseqOf : List String → List String → Bool
  | [], _ => true
  | _ :: _, [] => false
  | x :: xs, y :: ys => if x = y then isSubseqOf xs ys else isSubseqOf (x :: xs) ys

/-- Helper: `add_volumes` on an explicit job record appends all the mounts
to the first container and all the volumes to the pod spec. -/
theorem add_volumes_eq (l : List (VolumeMount × Volume)) (c : Container)
    (rest : List Container) (nm nsp : String) (bl : Nat) (ic : List Container)
    (vols : List Volume) (rp : String) (sc : Option (Int × Int)) :
    add_volumes
      { name := nm, namespc := nsp, backoffLimit := bl, containers := c :: rest,
        initContainers := ic, volumes := vols, restartPolicy := rp, securityContext := sc } l
      = { name := nm, namespc := nsp, backoffLimit := bl,
          containers := { c with volumeMounts := c.volumeMounts ++ l.map Prod.fst } :: rest,
          initContainers := ic, volumes := vols ++ l.map Prod.snd,
          restartPolicy := rp, securityContext := sc } := by
  induction l generalizing c vols with
  | nil => simp [add_volumes]
  | cons hd tl ih =>
    obtain ⟨vm, v⟩ := hd
    simp [add_volumes, appendVolumePair, mapContainer0, ih]

/-- Helper: closed form of the job spec assembled by `execute`. -/
theorem execute_eq (req : JobRequest) (cfg : ExternalConfig) (backend_job_id : String) :
    execute req cfg backend_job_id =
      { name := backend_job_id,
        namespc := cfg.k8sNamespace,
        backoffLimit := MAX_NUM_JOB_RESTARTS,
        containers := [{
            image := req.docker_img,
            command := req.cmd,
            name := "job",
            env := cfg.secretEnvVars
                     ++ req.env_vars.map (fun kv => { name := kv.1, value := kv.2 })
                     ++ (if req.kerberos then [krb5EnvEntry cfg] else []),
            volumeMounts := [cfg.secretsVolumeMount]
                              ++ (hostpath_pairs cfg).map Prod.fst
                              ++ (shared_pairs req cfg).map Prod.fst
                              ++ (eos_pairs cfg).map Prod.fst
                              ++ (cvmfs_pairs req cfg).map Prod.fst
                              ++ (if req.kerberos then krb5VolumeMounts cfg else []) }],
        initContainers := if req.kerberos then [krb5InitContainer cfg] else [],
        volumes := [cfg.secretsVolume]
                     ++ (hostpath_pairs cfg).map Prod.snd
                     ++ (shared_pairs req cfg).map Prod.snd
                     ++ (eos_pairs cfg).map Prod.snd
                     ++ (cvmfs_pairs req cfg).map Prod.snd
                     ++ (if req.kerberos then [krb5TicketCacheVolume, krb5ConfigVolume cfg] else []),
        restartPolicy := "Never",
        securityContext := some (cfg.runtimeUserGid, set_user_id req.kubernetes_uid cfg.runtimeUserUid) } := by
  cases hk : req.kerberos <;>
    simp [execute, maybe_add_krb5, hk, add_krb5_init_container, set_security_context,
      add_cvmfs_volumes, add_eos_volume, add_shared_volume, add_hostpath_volumes,
      addEnvVars, addSecrets, initialJob, mapContainer0, add_volumes_eq]

/-- C2: the effective run-as identity honors the requested one exactly
when it is present and at least 100, and is the configured default
otherwise; the boundary values 0 and 99 are replaced by the default while
100 and 101 are honored; and the security context of the built job spec
records exactly (configured gid, effective uid). -/
theorem C2_effective_identity :
    (∀ u d : Int, set_user_id (some u) d = if 100 ≤ u then u else d)
    ∧ (∀ d : Int, set_user_id none d = d)
    ∧ (∀ d : Int, set_user_id (some 0) d = d ∧ set_user_id (some 99) d = d
        ∧ set_user_id (some 100) d = 100 ∧ set_user_id (some 101) d = 101)
    ∧ (∀ req cfg backend_job_id, (execute req cfg backend_job_id).securityContext
        = some (cfg.runtimeUserGid, set_user_id req.kubernetes_uid cfg.runtimeUserUid)) := by
  refine ⟨fun u d => ?_, fun d => rfl, fun d => ?_, fun req cfg backend_job_id => ?_⟩
  · simp only [set_user_id]
    split <;> split <;> omega
  · refine ⟨?_, ?_, ?_, ?_⟩ <;> simp [set_user_id]
  · rw [execute_eq]


/-- C6 counterexample: in the concrete request `reqEx` (shared file system
requested, one hostPath mount configured) the hostPath volume precedes the
shared-filesystem volume in the built volumes list, refuting the claimed
order shared, then EOS, then hostPath. -/
theorem C6_counterexample :
    ((execute reqEx cfgEx "job-id").volumes.map Volume.name
        = ["reana-secretsstore", "hp-a", "reana-shared-volume", "alice.cern.ch-cvmfs-volume"])
    ∧ isSubseqOf ["hp-a", "reana-shared-volume"]
        ((execute reqEx cfgEx "job-id").volumes.map Volume.name) = true
    ∧ isSubseqOf ["reana-shared-volume", "hp-a"]
        ((execute reqEx cfgEx "job-id").volumes.map Volume.name) = false :=
  ⟨rfl, rfl, rfl⟩

/-- C6 amended: the volumes list of every built job spec is, in order, the
secrets volume, then the hostPath volumes, then the shared-filesystem
volume (if requested), then the EOS volume (if enabled), then the CVMFS
volumes, then the kerberos volumes. -/
theorem C6_volume_order (req : JobRequest) (cfg : ExternalConfig) (backend_job_id : String) :
    (execute req cfg backend_job_id).volumes
      = [cfg.secretsVolume]
          ++ (hostpath_pairs cfg).map Prod.snd
          ++ (shared_pairs req cfg).map Prod.snd
          ++ (eos_pairs cfg).map Prod.snd
          ++ (cvmfs_pairs req cfg).map Prod.snd
          ++ (if req.kerberos then [krb5TicketCacheVolume, krb5ConfigVolume cfg] else []) := by
  rw [execute_eq]

/-- C3: every built job spec has exactly one entry in the containers list,
and the name sequence of that container's volumeMounts equals the name
sequence of the pod volumes (so the two lists are pairwise consistent in
count and name), provided the externally supplied secrets, shared and EOS
pairs are themselves name-matched. -/
theorem C3_single_container_and_volume_consistency (req : JobRequest) (cfg : ExternalConfig)
    (backend_job_id : String)
    (h1 : cfg.secretsVolumeMount.name = cfg.secretsVolume.name)
    (h2 : (cfg.sharedVolumePair req.workflow_workspace).1.name
            = (cfg.sharedVolumePair req.workflow_workspace).2.name)
    (h3 : cfg.eosPair.1.name = cfg.eosPair.2.name) :
    (execute req cfg backend_job_id).containers.length = 1
    ∧ (container0Mounts (execute req cfg backend_job_id)).map VolumeMount.name
        = (execute req cfg backend_job_id).volumes.map Volume.name := by
  rw [execute_eq]
  refine ⟨rfl, ?_⟩
  cases hs : req.shared_file_system <;> cases he : cfg.eosAvailable <;>
    cases hk : req.kerberos <;> cases hc : req.cvmfs_mounts <;>
    simp [container0Mounts, hostpath_pairs, shared_pairs, eos_pairs, cvmfs_pairs,
      cvmfs_entries, krb5VolumeMounts, krb5TicketCacheVolume, krb5ConfigVolume,
      List.map_map, Function.comp_def, hs, he, hk, hc, h1, h2, h3]

/-- C3 witness: the property at the concrete request and configuration. -/
theorem C3_witness :
    cfgEx.secretsVolumeMount.name = cfgEx.secretsVolume.name
    ∧ (execute reqEx cfgEx "job-id").containers.length = 1
    ∧ (container0Mounts (execute reqEx cfgEx "job-id")).map VolumeMount.name
        = (execute reqEx cfgEx "job-id").volumes.map Volume.name := by
  have h := C3_single_container_and_volume_consistency reqEx cfgEx "job-id" rfl rfl rfl
  exact ⟨rfl, h.1, h.2⟩

/-- Helper: a successful dict lookup names an entry of the list. -/
theorem dictLookup_mem : ∀ (m : List (String × String)) (k v : String),
    dictLookup m k = some v → (k, v) ∈ m := by
  intro m k v h
  induction m with
  | nil => simp [dictLookup] at h
  | cons q rest ih =>
    rw [dictLookup] at h
    split at h
    · next heq =>
      have h1 : q.1 = k := by simpa using heq
      have h2 : q.2 = v := by simpa using h
      have : q = (k, v) := by obtain ⟨a, b⟩ := q; simp_all
      rw [← this]; exact List.mem_cons_self q rest
    · exact List.mem_cons_of_mem q (ih h)

/-- Helper: in a list whose second components are pairwise distinct, two
entries with the same second component coincide. -/
theorem snd_nodup_unique : ∀ (m : List (String × String)),
    (m.map Prod.snd).Nodup → ∀ a b : String × String, a ∈ m → b ∈ m → a.2 = b.2 → a = b := by
  intro m
  induction m with
  | nil => intro _ a b ha; simp at ha
  | cons q rest ih =>
    intro hnd a b ha hb hab
    rw [List.map_cons, List.nodup_cons] at hnd
    rcases List.mem_cons.mp ha with ha1 | ha1 <;> rcases List.mem_cons.mp hb with hb1 | hb1
    · rw [ha1, hb1]
    · exfalso
      apply hnd.1
      rw [ha1] at hab
      rw [hab]
      exact List.mem_map_of_mem Prod.snd hb1
    · exfalso
      apply hnd.1
      rw [hb1] at hab
      rw [← hab]
      exact List.mem_map_of_mem Prod.snd ha1
    · exact ih hnd.2 a b ha1 hb1 hab

/-- Helper: when the second components of the table are pairwise distinct,
`dictLookup` is injective on the keys it resolves to the same value. -/
theorem dictLookup_inj (m : List (String × String))
    (hvals : (m.map Prod.snd).Nodup) {p1 p2 r : String}
    (h1 : dictLookup m p1 = some r) (h2 : dictLookup m p2 = some r) : p1 = p2 := by
  have hu := snd_nodup_unique m hvals (p1, r) (p2, r)
    (dictLookup_mem m p1 r h1) (dictLookup_mem m p2 r h2) rfl
  exact congrArg Prod.fst hu

/-- Helper: membership in a `dictInsert` whose entries all satisfy the
table invariant. -/
theorem mem_dictInsert (table m : List (String × String))
    (hvals : (table.map Prod.snd).Nodup)
    (hm : ∀ q ∈ m, dictLookup table q.2 = some q.1)
    (r p : String) (hp : dictLookup table p = some r) (q : String × String) :
    q ∈ dictInsert m r p ↔ q ∈ m ∨ q = (r, p) := by
  unfold dictInsert
  by_cases hany : m.any (fun x => x.1 == r) = true
  · obtain ⟨x, hxmem, hx⟩ := List.any_eq_true.mp hany
    have hx1 : x.1 = r := by simpa using hx
    have hx2 : x.2 = p :=
      dictLookup_inj table hvals (hx1 ▸ hm x hxmem) hp
    have hxrp : x = (r, p) := by obtain ⟨a, b⟩ := x; simp_all
    have hid : m.map (fun y => if y.1 == r then (r, p) else y) = m := by
      rw [show m.map (fun y => if y.1 == r then (r, p) else y) = m.map id from ?_, List.map_id]
      apply List.map_congr_left
      intro y hy
      by_cases hyr : y.1 == r
      · have hy1 : y.1 = r := by simpa using hyr
        have hy2 : y.2 = p := dictLookup_inj table hvals (hy1 ▸ hm y hy) hp
        obtain ⟨a, b⟩ := y
        simp_all
      · simp [hyr]
    rw [if_pos hany, hid]
    constructor
    · exact fun h => Or.inl h
    · rintro (h | h)
      · exact h
      · rw [h, ← hxrp]; exact hxmem
  · rw [if_neg hany]
    simp [List.mem_append]

/-- Helper: `dictInsert` preserves the table invariant. -/
theorem dictInsert_inv (table m : List (String × String))
    (hvals : (table.map Prod.snd).Nodup)
    (hm : ∀ q ∈ m, dictLookup table q.2 = some q.1)
    (r p : String) (hp : dictLookup table p = some r) :
    ∀ q ∈ dictInsert m r p, dictLookup table q.2 = some q.1 := by
  intro q hq
  rcases (mem_dictInsert table m hvals hm r p hp q).mp hq with h | h
  · exact hm q h
  · rw [h]; exact hp

/-- Helper: characterisation of membership in the `cvmfs_map` fold. -/
theorem mem_cvmfs_map_aux (table : List (String × String))
    (hvals : (table.map Prod.snd).Nodup) :
    ∀ (ps : List String) (m : List (String × String)),
      (∀ q ∈ m, dictLookup table q.2 = some q.1) →
      ∀ q : String × String,
        q ∈ cvmfs_map_aux table ps m ↔ q ∈ m ∨ (q.2 ∈ ps ∧ dictLookup table q.2 = some q.1) := by
  intro ps
  induction ps with
  | nil => intro m hm q; simp [cvmfs_map_aux]
  | cons p ps ih =>
    intro m hm q
    rcases hl : dictLookup table p with _ | r
    · rw [show cvmfs_map_aux table (p :: ps) m = cvmfs_map_aux table ps m by
        rw [cvmfs_map_aux, hl]]
      rw [ih m hm q]
      simp only [List.mem_cons]
      constructor
      · rintro (h | ⟨h2, hL⟩)
        · exact Or.inl h
        · exact Or.inr ⟨Or.inr h2, hL⟩
      · rintro (h | ⟨h2 | h2, hL⟩)
        · exact Or.inl h
        · rw [h2] at hL; rw [hL] at hl; cases hl
        · exact Or.inr ⟨h2, hL⟩
    · rw [show cvmfs_map_aux table (p :: ps) m = cvmfs_map_aux table ps (dictInsert m r p) by
        rw [cvmfs_map_aux, hl]]
      have hm2 := dictInsert_inv table m hvals hm r p hl
      rw [ih (dictInsert m r p) hm2 q, mem_dictInsert table m hvals hm r p hl q]
      simp only [List.mem_cons]
      constructor
      · rintro ((h | h) | ⟨h2, hL⟩)
        · exact Or.inl h
        · rw [h]; exact Or.inr ⟨Or.inl rfl, hl⟩
        · exact Or.inr ⟨Or.inr h2, hL⟩
      · rintro (h | ⟨h2 | h2, hL⟩)
        · exact Or.inl (Or.inl h)
        · refine Or.inl (Or.inr ?_)
          rw [h2] at hL
          rw [hL] at hl
          have h1 : q.1 = r := Option.some.inj hl
          obtain ⟨a, b⟩ := q
          simp_all
        · exact Or.inr ⟨h2, hL⟩

/-- Helper: membership in `cvmfs_map`. -/
theorem mem_cvmfs_map (table : List (String × String))
    (hvals : (table.map Prod.snd).Nodup) (paths : List String) (q : String × String) :
    q ∈ cvmfs_map table paths ↔ q.2 ∈ paths ∧ dictLookup table q.2 = some q.1 := by
  have h := mem_cvmfs_map_aux table hvals paths [] (by simp) q
  simpa [cvmfs_map] using h

/-- Helper: appending on the left of a string is cancellative. -/
theorem string_append_left_cancel {a s t : String} (h : a ++ s = a ++ t) : s = t := by
  have hd : a.data ++ s.data = a.data ++ t.data := by
    have h1 : (a ++ s).data = a.data ++ s.data := rfl
    have h2 : (a ++ t).data = a.data ++ t.data := rfl
    rw [← h1, ← h2, h]
  have hst : s.data = t.data := List.append_cancel_left hd
  obtain ⟨sd⟩ := s
  obtain ⟨td⟩ := t
  exact congrArg String.mk hst

/-- C4: for a CVMFS mount request list and a requested name `p` in it, a
volumeMount at `/cvmfs/<p>` is produced if and only if `p` is a key of
the repository table (whose repositories are pairwise distinct, as in
`CVMFS_REPOSITORIES`); and every produced entry lands as a mount of the
single job container and a pod volume of the built spec. Unknown names
produce no entry and no error (the builder is total). -/
theorem C4_cvmfs_mount_iff_known (table : List (String × String)) (cv : String → Volume)
    (paths : List String) (p : String)
    (hvals : (table.map Prod.snd).Nodup)
    (hp : p ∈ paths) :
    ((∃ e ∈ cvmfs_entries table cv paths, e.1.mountPath = "/cvmfs/" ++ p)
        ↔ ∃ r, dictLookup table p = some r)
    ∧ (∀ (req : JobRequest) (cfg : ExternalConfig) (backend_job_id : String),
        req.cvmfs_mounts = some paths →
        cfg.cvmfsRepositories = table → cfg.cvmfsVolume = cv →
        ∀ e ∈ cvmfs_entries table cv paths,
          e.1 ∈ container0Mounts (execute req cfg backend_job_id)
          ∧ e.2 ∈ (execute req cfg backend_job_id).volumes) := by
  constructor
  · constructor
    · rintro ⟨e, he, hpath⟩
      simp only [cvmfs_entries, List.mem_map] at he
      obtain ⟨rp, hrp, rfl⟩ := he
      have h2 : rp.2 = p := string_append_left_cancel hpath
      have hq := (mem_cvmfs_map table hvals paths rp).mp hrp
      exact ⟨rp.1, h2 ▸ hq.2⟩
    · rintro ⟨r, hr⟩
      refine ⟨({ name := (cv r).name, mountPath := "/cvmfs/" ++ p }, cv r), ?_, rfl⟩
      simp only [cvmfs_entries, List.mem_map]
      exact ⟨(r, p), (mem_cvmfs_map table hvals paths (r, p)).mpr ⟨hp, hr⟩, rfl⟩
  · intro req cfg backend_job_id hc ht hv e he
    have hD : e ∈ cvmfs_pairs req cfg := by
      simp only [cvmfs_pairs, hc, ht, hv]
      exact he
    rw [execute_eq]
    constructor
    · have h1 : e.1 ∈ (cvmfs_pairs req cfg).map Prod.fst := List.mem_map_of_mem Prod.fst hD
      simp only [container0Mounts, List.mem_append]
      tauto
    · have h2 : e.2 ∈ (cvmfs_pairs req cfg).map Prod.snd := List.mem_map_of_mem Prod.snd hD
      simp only [List.mem_append]
      tauto

/-- C4 witness: with the concrete repository table, the known name
produces a `/cvmfs/alice` mount and the unknown name produces none. -/
theorem C4_witness :
    ((∃ e ∈ cvmfs_entries cfgEx.cvmfsRepositories cfgEx.cvmfsVolume ["alice", "unknownrepo"],
        e.1.mountPath = "/cvmfs/" ++ "alice")
      ↔ ∃ r, dictLookup cfgEx.cvmfsRepositories "alice" = some r)
    ∧ ¬ (∃ e ∈ cvmfs_entries cfgEx.cvmfsRepositories cfgEx.cvmfsVolume ["alice", "unknownrepo"],
        e.1.mountPath = "/cvmfs/" ++ "unknownrepo") := by
  have h1 := C4_cvmfs_mount_iff_known cfgEx.cvmfsRepositories cfgEx.cvmfsVolume
    ["alice", "unknownrepo"] "alice" (by decide) (by decide)
  have h2 := C4_cvmfs_mount_iff_known cfgEx.cvmfsRepositories cfgEx.cvmfsVolume
    ["alice", "unknownrepo"] "unknownrepo" (by decide) (by decide)
  refine ⟨h1.1, fun hex => ?_⟩
  obtain ⟨r, hr⟩ := h2.1.mp hex
  have hnone : dictLookup cfgEx.cvmfsRepositories "unknownrepo" = none := by decide
  rw [hnone] at hr
  cases hr

/-- Helper: the escaped form of a command never starts with a bare quote. -/
theorem escape_head_ne_quote (l : List Char) :
    ∀ t : List Char, escapeDoubleQuotesList l ≠ '"' :: t := by
  intro t h
  cases l with
  | nil => simp [escapeDoubleQuotesList] at h
  | cons c rest =>
    rw [escapeDoubleQuotesList] at h
    by_cases hc : c = '"'
    · rw [if_pos hc] at h
      injection h with h1 h2
      exact absurd h1 (by decide)
    · rw [if_neg hc] at h
      injection h with h1 h2
      exact hc h1

/-- Helper: in the escaped form of a command, every double quote is
preceded by a backslash. -/
theorem allQuotesEscaped_escape (l : List Char) :
    allQuotesEscaped (escapeDoubleQuotesList l) = true := by
  induction l with
  | nil => rfl
  | cons c rest ih =>
    rw [escapeDoubleQuotesList]
    by_cases hc : c = '"'
    · rw [if_pos hc]
      simpa [allQuotesEscaped] using ih
    · rw [if_neg hc]
      rcases hE : escapeDoubleQuotesList rest with _ | ⟨d, t⟩
      · simp [allQuotesEscaped, hc]
      · have hd : d ≠ '"' := by
          intro hdq
          exact escape_head_ne_quote rest t (by rw [hE, hdq])
        have hstep : allQuotesEscaped (c :: d :: t) = allQuotesEscaped (d :: t) := by
          rw [allQuotesEscaped, if_neg hc, if_neg (by tauto)]
        rw [hstep, ← hE]
        exact ih

/-- C5 counterexample: the direct-pool submission description built by
`condor_instantiate_job` has only the `executable` and `arguments` keys
and no `on_exit_remove` entry, so not every scheduler-backend submission
carries the removal expression. -/
theorem C5_counterexample :
    (condor_instantiate_job_description "busybox" "echo hi").map Prod.fst
        = ["executable", "arguments"]
    ∧ dictLookup (condor_instantiate_job_description "busybox" "echo hi") "on_exit_remove" = none :=
  ⟨rfl, rfl⟩

/-- C5 amended: every federated-pool (HTCondorVC3) submission description
carries the `on_exit_remove` expression, whose truth value is exactly
"exited without signal and (exit code 0 or restart count exceeded the
ceiling)"; the direct-pool description carries no such key. -/
theorem C5_federated_on_exit_remove (wrapper workflow_workspace docker_img cmd : String)
    (env_vars : List (String × String)) (maxJobRestarts : Nat) :
    dictLookup
        (vc3_submit_description wrapper workflow_workspace docker_img cmd env_vars maxJobRestarts)
        "on_exit_remove" = some (on_exit_remove_expr maxJobRestarts)
    ∧ (∀ (exitBySignal : Bool) (exitCode : Int) (numJobStarts : Nat),
        on_exit_remove_holds maxJobRestarts exitBySignal exitCode numJobStarts
          ↔ (exitBySignal = false ∧ (exitCode = 0 ∨ maxJobRestarts < numJobStarts)))
    ∧ (∀ docker_img2 cmd2 : String,
        dictLookup (condor_instantiate_job_description docker_img2 cmd2) "on_exit_remove" = none) := by
  refine ⟨rfl, ?_, fun docker_img2 cmd2 => rfl⟩
  intro exitBySignal exitCode numJobStarts
  unfold on_exit_remove_holds
  constructor
  · rintro ⟨hs, h | ⟨hne, hlt⟩⟩
    · exact ⟨hs, Or.inl h⟩
    · exact ⟨hs, Or.inr hlt⟩
  · rintro ⟨hs, h⟩
    refine ⟨hs, ?_⟩
    by_cases hc : exitCode = 0
    · exact Or.inl hc
    · rcases h with h | h
      · exact Or.inl h
      · exact Or.inr ⟨hc, h⟩

/-- C7 counterexample: a direct-pool request whose command contains a
double quote is embedded verbatim in `arguments`, leaving a bare double
quote, so the claim that both pools escape quotes fails. -/
theorem C7_counterexample :
    dictLookup (condor_instantiate_job_description "busybox" cmdWithQuote) "arguments"
        = some ("exec docker://busybox " ++ cmdWithQuote)
    ∧ allQuotesEscaped ("exec docker://busybox " ++ cmdWithQuote).data = false :=
  ⟨rfl, by decide⟩

/-- C7 amended: the federated-pool `arguments` string embeds the command
with every double quote backslash-escaped (and the escaped form contains
no bare double quote), while the direct pool embeds the command verbatim
with no escaping. -/
theorem C7_quote_escaping (wrapper workflow_workspace docker_img cmd : String)
    (env_vars : List (String × String)) (maxJobRestarts : Nat) :
    dictLookup
        (vc3_submit_description wrapper workflow_workspace docker_img cmd env_vars maxJobRestarts)
        "arguments"
      = some (workflow_workspace ++ " " ++ docker_img ++ " " ++ escapeDoubleQuotes cmd)
    ∧ allQuotesEscaped (escapeDoubleQuotes cmd).data = true
    ∧ (∀ docker_img2 cmd2 : String,
        dictLookup (condor_instantiate_job_description docker_img2 cmd2) "arguments"
          = some ("exec docker://" ++ docker_img2 ++ " " ++ cmd2)) :=
  ⟨rfl, allQuotesEscaped_escape cmd.data, fun docker_img2 cmd2 => rfl⟩

/-- C8: the container-backend deletion call uses `Foreground` propagation
when `asynchronous` is false and `Background` when true, keyed by the
given job id and namespace; the scheduler-backend removal action is the
same whatever the `asynchronous` flag. -/
theorem C8_stop_propagation :
    (∀ backend_job_id k8sNamespace : String,
        (stop backend_job_id false k8sNamespace).propagationPolicy = "Foreground"
        ∧ (stop backend_job_id true k8sNamespace).propagationPolicy = "Background"
        ∧ ∀ asynchronous : Bool,
            (stop backend_job_id asynchronous k8sNamespace).jobId = backend_job_id
            ∧ (stop backend_job_id asynchronous k8sNamespace).namespc = k8sNamespace)
    ∧ (∀ (backend_job_id : PyVal) (a1 a2 : Bool),
        vc3_stop backend_job_id a1 = vc3_stop backend_job_id a2) :=
  ⟨fun backend_job_id k8sNamespace =>
      ⟨rfl, rfl, fun asynchronous => ⟨rfl, rfl⟩⟩,
   fun backend_job_id a1 a2 => rfl⟩

/-- C10: the federated-pool `execute` returns the cluster id as a string,
and `stop` formats its removal constraint with an integer format
specifier, so feeding the returned handle back unconverted raises a
`TypeError` instead of issuing a removal, while the integer form
succeeds. -/
theorem C10_handle_type_mismatch :
    (∀ clusterid : Int, vc3_execute_handle clusterid = PyVal.str (toString clusterid))
    ∧ (∀ (clusterid : Int) (asynchronous : Bool),
        vc3_stop (vc3_execute_handle clusterid) asynchronous
          = Except.error "TypeError: %d format: a number is required, not str")
    ∧ (∀ (clusterid : Int) (asynchronous : Bool),
        vc3_stop (PyVal.int clusterid) asynchronous
          = Except.ok { action := "Remove", constraint := "ClusterId==" ++ toString clusterid }) :=
  ⟨fun clusterid => rfl, fun clusterid asynchronous => rfl, fun clusterid asynchronous => rfl⟩

/-- C9 counterexample: a workspace wrapper with the same stat signature
as the canonical copy but different bytes is reused, so reuse is not
decided by a byte-for-byte comparison. -/
theorem C9_counterexample :
    get_wrapper wsStale = WrapperOutcome.reused ∧ wsStale.localBytes ≠ wsStale.wrapperBytes :=
  ⟨rfl, by decide⟩

/-- C9 amended: the workspace wrapper is reused if and only if it exists
and `filecmp.cmp`'s default shallow comparison judges it equal to the
canonical copy (equal stat signature, or equal size and equal bytes);
otherwise the copy is staged, creating the directory when missing, and a
staging failure is logged with the acting operating-system identity and
re-raised. -/
theorem C9_wrapper_staging (fs : WrapperWorkspace) :
    (get_wrapper fs = WrapperOutcome.reused
        ↔ fs.wrapperExists = true
          ∧ filecmp_cmp fs.localSig fs.wrapperSig fs.localBytes fs.wrapperBytes = true)
    ∧ ((fs.wrapperExists && filecmp_cmp fs.localSig fs.wrapperSig fs.localBytes fs.wrapperBytes)
          = false →
        (fs.copySucceeds = true → get_wrapper fs = WrapperOutcome.copied (!fs.wrapperDirExists))
        ∧ (fs.copySucceeds = false →
            get_wrapper fs = WrapperOutcome.raisedAfterLogging fs.currentOsUser)) := by
  rcases hw : fs.wrapperExists <;>
    rcases hcmp : filecmp_cmp fs.localSig fs.wrapperSig fs.localBytes fs.wrapperBytes <;>
    rcases hcs : fs.copySucceeds <;>
    simp [get_wrapper, hw, hcmp, hcs]

/-- C9 witness: the failing copy is reported with the acting OS user, and
the shallow-equal wrapper is reused. -/
theorem C9_wrapper_staging_witness :
    get_wrapper wsCopyFail = WrapperOutcome.raisedAfterLogging "condor"
    ∧ get_wrapper wsStale = WrapperOutcome.reused := by
  have h1 := C9_wrapper_staging wsCopyFail
  have h2 := C9_wrapper_staging wsStale
  exact ⟨(h1.2 (by decide)).2 (by decide), h2.1.mpr (by decide)⟩

/-- C1: `_submit` catches both the backend `ApiException` and any other
exception, logs, and falls through returning Python's `None`; hence a
deterministically failing backend produces a single attempt and the value
`None` (no raised error reaches the caller and the retry ceiling is never
exercised), while a succeeding backend returns the job name after one
call. This contradicts the claimed propagation of a computing-backend
submission error after three attempts. -/
theorem C1_submit_swallows_failures :
    submitWithRetry (fun _ => SubmitAttempt.apiException "Forbidden") "job-uuid"
        = (PyResult.ret none, 1)
    ∧ (∀ (backend : Nat → SubmitAttempt) (jobName : String),
        (submitWithRetry backend jobName).2 = 1)
    ∧ (∀ (backend : Nat → SubmitAttempt) (jobName msg : String),
        (submitWithRetry backend jobName).1 ≠ PyResult.exc msg)
    ∧ submitWithRetry (fun _ => SubmitAttempt.ok) "job-uuid"
        = (PyResult.ret (some "job-uuid"), 1) := by
  refine ⟨rfl, ?_, ?_, rfl⟩
  · intro backend jobName
    unfold submitWithRetry retry_call MAX_NUM_RESUBMISSIONS
    cases hb : backend 0 <;> simp [retry_from, submit_body, hb]
  · intro backend jobName msg
    unfold submitWithRetry retry_call MAX_NUM_RESUBMISSIONS
    cases hb : backend 0 <;> simp [retry_from, submit_body, hb]
